import Mathlib

/-!
A shallow embedding of the tracking-and-occlusion pipeline of the
repository: `processors/object_tracker.py` (classes `TrackedObject` and
`ObjectTracker`) and `processors/blur_applicator.py` (class
`BlurApplicator`).

Conventions of the embedding:
- Python `int` pixel coordinates become `ℤ`; Python `float` becomes `ℚ`
  (all the arithmetic the claims exercise is exact).
- Python `int(x)` on a float truncates toward zero; `pyTrunc` models it.
- A Python `dict` keyed by tracking id (insertion-ordered) becomes an
  association list `List (ℕ × TrackedObject)` in insertion order.
- The opaque OpenCV single-object tracker is a capability: `update_trackers`
  takes a `refresh` oracle (per tracking id, `none` = re-localization
  failure, `some bbox` = success with the relocated box) and an `initOk`
  oracle for `tracker.init` on new detections.
- The opaque OpenCV drawing primitives (GaussianBlur, resize pixelation,
  rectangle/addWeighted) are a capability `RenderPrims` over an abstract
  frame type; each may fail, modelling a raised exception (`Except`).
-/

/-- Python `int()` applied to an exact rational: truncation toward zero
(`Int.tdiv` truncates toward zero; `pyTrunc_spec` below restates this as
ceiling for negatives, floor otherwise). -/
def pyTrunc (q : ℚ) : ℤ := q.num.tdiv q.den

lemma pyTrunc_spec (q : ℚ) : pyTrunc q = if q < 0 then ⌈q⌉ else ⌊q⌋ := by
  unfold pyTrunc
  split
  next h =>
    have hnum : q.num < 0 := by rw [Rat.num_neg]; exact h
    have h1 : q.num.tdiv q.den = -((-q.num).tdiv q.den) := by
      rw [Int.neg_tdiv, neg_neg]
    rw [h1, Int.tdiv_eq_ediv (by omega) (by positivity)]
    have h2 : ((-q).num) / ((-q).den : ℤ) = ⌊-q⌋ := (Rat.floor_def).symm
    rw [Rat.neg_num, Rat.neg_den] at h2
    rw [h2, Int.floor_neg, neg_neg]
  next h =>
    have hnum : 0 ≤ q.num := by rw [Rat.num_nonneg]; exact le_of_not_lt h
    rw [Int.tdiv_eq_ediv hnum (by positivity), Rat.floor_def]

/-- Bounding box dict `{x, y, width, height}` with integer pixel fields. -/
structure BBox where
  x : ℤ
  y : ℤ
  width : ℤ
  height : ℤ
deriving DecidableEq

/-- Detection dict as produced by the detectors and enriched by the tracker.
Field names follow the Python dict keys (`type`, `should_blur`, ...). -/
structure Detection where
  type : String
  bbox : BBox
  confidence : ℚ
  censorship_level : String
  should_blur : Bool
  tracking_id : Option ℕ
  velocity : ℚ × ℚ
  is_tracked : Bool
  is_persistent : Bool
deriving DecidableEq

/-- `TrackedObject` from `object_tracker.py`: one tracked region's mutable
state (the opaque cv2 tracker handle is not part of the state; it is
modelled by the `refresh` oracle of `update_trackers`). -/
structure TrackedObject where
  detection : Detection
  tracking_id : ℕ
  age : ℕ
  max_age : ℕ
  position_history : List (ℚ × ℚ)
  velocity : ℚ × ℚ
deriving DecidableEq

/-- `TrackedObject._get_center`: center point of a bounding box. -/
def getCenter (bbox : BBox) : ℚ × ℚ :=
  ((bbox.x : ℚ) + (bbox.width : ℚ) / 2, (bbox.y : ℚ) + (bbox.height : ℚ) / 2)

/-- `deque(maxlen=5).append`: push right, dropping the leftmost element
when the deque already holds 5 entries. -/
def dequePush5 (hist : List (ℚ × ℚ)) (c : ℚ × ℚ) : List (ℚ × ℚ) :=
  let h := hist ++ [c]
  if h.length > 5 then h.tail else h

/-- `TrackedObject.__init__` (the tracker handle aside): age 0, history
seeded with the detection's center, zero velocity. -/
def TrackedObject.init (detection : Detection) (tracking_id : ℕ) (max_age : ℕ) :
    TrackedObject :=
  { detection := detection
    tracking_id := tracking_id
    age := 0
    max_age := max_age
    position_history := [getCenter detection.bbox]
    velocity := (0, 0) }

/-- `TrackedObject.update_position`: store the new bbox, append its center
to the history, derive velocity from the history span when it holds at
least two points, and reset `age` to 0. -/
def TrackedObject.update_position (t : TrackedObject) (bbox : BBox) : TrackedObject :=
  let det := { t.detection with bbox := bbox }
  let center := getCenter bbox
  let hist := dequePush5 t.position_history center
  match hist with
  | old :: _ :: _ =>
    let frames : ℚ := ((hist.length : ℤ) - 1 : ℤ)
    let v : ℚ × ℚ := ((center.1 - old.1) / frames, (center.2 - old.2) / frames)
    { t with detection := { det with velocity := v }
             position_history := hist
             velocity := v
             age := 0 }
  | _ =>
    { t with detection := det, position_history := hist, age := 0 }

/-- `TrackedObject.predict_position`: extrapolate the bbox position by
`velocity * frames_ahead`, truncating to `int` as the Python code does. -/
def TrackedObject.predict_position (t : TrackedObject) (frames_ahead : ℕ) : BBox :=
  let b := t.detection.bbox
  { b with x := pyTrunc ((b.x : ℚ) + t.velocity.1 * (frames_ahead : ℚ))
           y := pyTrunc ((b.y : ℚ) + t.velocity.2 * (frames_ahead : ℚ)) }

/-- `TrackedObject.increment_age`. -/
def TrackedObject.increment_age (t : TrackedObject) : TrackedObject :=
  { t with age := t.age + 1 }

/-- `TrackedObject.is_expired`: `age > max_age`. -/
def TrackedObject.is_expired (t : TrackedObject) : Bool :=
  t.age > t.max_age

/-- `ObjectTracker._calculate_iou`: intersection over union of two boxes,
`0.0` when the guard `x_max < x_min or y_max < y_min` fires or the union
area is not positive. -/
def calculate_iou (bbox1 bbox2 : BBox) : ℚ :=
  let x1max := bbox1.x + bbox1.width
  let y1max := bbox1.y + bbox1.height
  let x2max := bbox2.x + bbox2.width
  let y2max := bbox2.y + bbox2.height
  let xmin := max bbox1.x bbox2.x
  let ymin := max bbox1.y bbox2.y
  let xmax := min x1max x2max
  let ymax := min y1max y2max
  if xmax < xmin ∨ ymax < ymin then 0
  else
    let intersection := (xmax - xmin) * (ymax - ymin)
    let union := bbox1.width * bbox1.height + bbox2.width * bbox2.height - intersection
    if 0 < union then (intersection : ℚ) / (union : ℚ) else 0

/-- The fold inside `ObjectTracker._match_detection_to_tracker`: scan the
trackers in insertion order keeping the best (strictly larger) IoU seen so
far. The Python loop keeps only the id and indexes the dict afterwards;
since the dict is not modified in between, carrying the pair is the same. -/
def matchFold (d : Detection) :
    List (ℕ × TrackedObject) → Option (ℕ × TrackedObject) → ℚ → Option (ℕ × TrackedObject)
  | [], best, _ => best
  | p :: rest, best, bestIou =>
    let iou := calculate_iou d.bbox p.2.detection.bbox
    if bestIou < iou then matchFold d rest (some p) iou
    else matchFold d rest best bestIou

/-- `ObjectTracker._match_detection_to_tracker` with the default
`iou_threshold = 0.3`. -/
def match_detection_to_tracker (d : Detection) (trackers : List (ℕ × TrackedObject)) :
    Option (ℕ × TrackedObject) :=
  matchFold d trackers none (3 / 10)

/-- Refresh phase of `ObjectTracker.update_trackers` (the loop over
`list(trackers.items())`): per tracker, a successful `tracker.update(frame)`
(oracle `refresh`) updates its position (age 0), a failure increments age. -/
def refreshPhase (refresh : ℕ → TrackedObject → Option BBox)
    (trackers : List (ℕ × TrackedObject)) : List (ℕ × TrackedObject) :=
  trackers.map (fun p =>
    match refresh p.1 p.2 with
    | some bbox => (p.1, p.2.update_position bbox)
    | none => (p.1, p.2.increment_age))

/-- Expiry removal of `update_trackers`: every tracker with
`is_expired()` (checked right after its refresh) is deleted. -/
def removeExpired (trackers : List (ℕ × TrackedObject)) : List (ℕ × TrackedObject) :=
  trackers.filter (fun p => ¬ p.2.is_expired)

/-- Python dict assignment `trackers[id] = t` for an id already present:
the entry is replaced in place, keeping its insertion position. -/
def setTracker (id : ℕ) (t : TrackedObject) (trackers : List (ℕ × TrackedObject)) :
    List (ℕ × TrackedObject) :=
  trackers.map (fun p => if p.1 = id then (id, t) else p)

/-- Association phase of `update_trackers`: detections in received order;
a matched detection updates its tracker's motion state and is emitted with
the tracker's predicted bbox; the rest go to `unmatched_detections`.
Returns (matched_detections, unmatched_detections, trackers). -/
def assocPhase (prediction_frames : ℕ) :
    List Detection → List (ℕ × TrackedObject) →
    List Detection × List Detection × List (ℕ × TrackedObject)
  | [], trackers => ([], [], trackers)
  | d :: rest, trackers =>
    match match_detection_to_tracker d trackers with
    | some (id, t) =>
      let t' := t.update_position d.bbox
      let predicted := t'.predict_position prediction_frames
      let d' := { d with tracking_id := some id
                         bbox := predicted
                         velocity := t'.velocity
                         is_tracked := true }
      let out := assocPhase prediction_frames rest (setTracker id t' trackers)
      (d' :: out.1, out.2.1, out.2.2)
    | none =>
      let out := assocPhase prediction_frames rest trackers
      (out.1, d :: out.2.1, out.2.2)

/-- New-track creation of `update_trackers`: per unmatched detection, when
`tracker.init` succeeds (oracle `initOk`) a fresh monotonically increasing
id is assigned and a new `TrackedObject` stored; the detection dict (which
the new track aliases) gets `tracking_id`, `is_tracked`, `velocity=(0,0)`.
Returns (emitted detections, new trackers, next_tracking_id). -/
def creationPhase (initOk : Detection → Bool) (max_age : ℕ) :
    List Detection → ℕ → List Detection × List (ℕ × TrackedObject) × ℕ
  | [], next_id => ([], [], next_id)
  | d :: rest, next_id =>
    if initOk d then
      let d' := { d with tracking_id := some next_id
                         is_tracked := true
                         velocity := (0, 0) }
      let t := TrackedObject.init d' next_id max_age
      let out := creationPhase initOk max_age rest (next_id + 1)
      (d' :: out.1, (next_id, t) :: out.2.1, out.2.2)
    else
      creationPhase initOk max_age rest next_id

/-- Ghost emission of `update_trackers`: every live tracker whose id is not
carried by any already-emitted detection yields one synthesized persistent
detection at its predicted position. -/
def ghostPhase (prediction_frames : ℕ) (matched : List Detection)
    (trackers : List (ℕ × TrackedObject)) : List Detection :=
  (trackers.filter (fun p => ¬ matched.any (fun d => d.tracking_id = some p.1))).map
    (fun p =>
      { p.2.detection with bbox := p.2.predict_position prediction_frames
                           tracking_id := some p.1
                           is_tracked := true
                           is_persistent := true })

/-- Result of one `ObjectTracker.update_trackers` call: the emitted
detection list, the updated tracker dict, and `self.next_tracking_id`. -/
structure UpdateResult where
  dets : List Detection
  trackers : List (ℕ × TrackedObject)
  next_id : ℕ
deriving DecidableEq

/-- `ObjectTracker.update_trackers` (success path; the opaque cv2 calls are
the `refresh` / `initOk` oracles): refresh, expire, associate, create,
then emit ghosts. -/
def update_trackers (refresh : ℕ → TrackedObject → Option BBox)
    (initOk : Detection → Bool) (prediction_frames max_age : ℕ)
    (detections : List Detection) (trackers : List (ℕ × TrackedObject))
    (next_id : ℕ) : UpdateResult :=
  let live := removeExpired (refreshPhase refresh trackers)
  let assoc := assocPhase prediction_frames detections live
  let created := creationPhase initOk max_age assoc.2.1 next_id
  let trackers' := assoc.2.2 ++ created.2.1
  let matched := assoc.1 ++ created.1
  let ghosts := ghostPhase prediction_frames matched trackers'
  { dets := matched ++ ghosts
    trackers := trackers'
    next_id := created.2.2 }

/-- `BlurApplicator._get_blur_strength`:
`min(confidence * 1.2, 1.0) * level_multiplier`. -/
def get_blur_strength (d : Detection) : ℚ :=
  let base_strength := min (d.confidence * (12 / 10)) 1
  let multiplier : ℚ :=
    if d.censorship_level = "critical" then 1
    else if d.censorship_level = "high" then 9 / 10
    else if d.censorship_level = "medium" then 7 / 10
    else if d.censorship_level = "low" then 1 / 2
    else 7 / 10
  base_strength * multiplier

/-- `BlurApplicator._get_blur_method`: critical level always forces the
opaque box; otherwise the method follows the detection type. -/
def get_blur_method (d : Detection) : String :=
  if d.censorship_level = "critical" then "black_box"
  else if d.type = "text" then "blur"
  else if d.type = "nsfw" then "pixelate"
  else "blur"

/-- The opaque OpenCV drawing primitives used by `apply_blur`, over an
abstract frame type `F`. Each call may raise (`Except.error`), modelling a
Python exception escaping the primitive. -/
structure RenderPrims (F : Type) where
  gaussian : BBox → ℚ → F → Except Unit F
  pixelate : BBox → ℤ → F → Except Unit F
  black_box : BBox → ℚ → F → Except Unit F

/-- The per-detection body of the `apply_blur` loop: select the method and
strength, then dispatch to the matching primitive (pixel size
`max(5, int(20 * (1 - strength)))` for pixelation, fixed alpha 0.9 for the
opaque box). -/
def renderRegion {F : Type} (prims : RenderPrims F) (d : Detection) (frame : F) :
    Except Unit F :=
  let method := get_blur_method d
  let strength := get_blur_strength d
  if method = "blur" then prims.gaussian d.bbox strength frame
  else if method = "pixelate" then
    prims.pixelate d.bbox (max 5 (pyTrunc (20 * (1 - strength)))) frame
  else if method = "black_box" then prims.black_box d.bbox (9 / 10) frame
  else Except.ok frame

/-- The `apply_blur` loop over the (possibly merged) regions: the first
raised error aborts the whole loop (there is no per-region handler in the
source). -/
def renderRegions {F : Type} (prims : RenderPrims F) :
    List Detection → F → Except Unit F
  | [], frame => Except.ok frame
  | d :: rest, frame =>
    match renderRegion prims d frame with
    | Except.ok frame' => renderRegions prims rest frame'
    | Except.error e => Except.error e

/-- Stable ascending insertion by bbox `x` (helper for `sortByX`). -/
def insertByX (d : Detection) : List Detection → List Detection
  | [] => [d]
  | e :: rest =>
    if d.bbox.x ≤ e.bbox.x then d :: e :: rest else e :: insertByX d rest

/-- Python `sorted(detections, key=lambda d: d['bbox']['x'])`: a stable
ascending sort by bbox `x` (insertion sort is extensionally the same
function as any stable sort by this key). -/
def sortByX : List Detection → List Detection
  | [] => []
  | d :: rest => insertByX d (sortByX rest)

/-- The overlap test of `_merge_overlapping_boxes` between the running
cluster's bbox `cb` and the next (sorted-by-x) box `db`, exactly as the
source writes it. -/
def mergeCond (cb db : BBox) : Prop :=
  cb.x + cb.width ≥ db.x ∧ cb.y + cb.height ≥ db.y ∧ cb.y ≤ db.y + db.height

instance (cb db : BBox) : Decidable (mergeCond cb db) := by
  unfold mergeCond; infer_instance

/-- The merged bounding box of the running cluster and the absorbed box. -/
def mergedBBox (cb db : BBox) : BBox :=
  let xmin := min cb.x db.x
  let ymin := min cb.y db.y
  let xmax := max (cb.x + cb.width) (db.x + db.width)
  let ymax := max (cb.y + cb.height) (db.y + db.height)
  { x := xmin, y := ymin, width := xmax - xmin, height := ymax - ymin }

/-- The left-to-right sweep of `_merge_overlapping_boxes`: the running
cluster `current` absorbs the next box when `mergeCond` holds (only its
bbox grows; every other field of `current` is kept), otherwise `current`
is emitted and the next box starts a new cluster. -/
def mergeLoop (current : Detection) : List Detection → List Detection
  | [] => [current]
  | d :: rest =>
    if mergeCond current.bbox d.bbox then
      mergeLoop { current with bbox := mergedBBox current.bbox d.bbox } rest
    else
      current :: mergeLoop d rest

/-- `BlurApplicator._merge_overlapping_boxes`: lists of length ≤ 1 are
returned as-is; otherwise sort by x and sweep. -/
def merge_overlapping_boxes (detections : List Detection) : List Detection :=
  if detections.length ≤ 1 then detections
  else
    match sortByX detections with
    | [] => []
    | d :: rest => mergeLoop d rest

/-- `BlurApplicator.apply_blur` (`use_feathering` is accepted and unused,
as in the source): empty input or no `should_blur` detection returns the
input frame itself; otherwise merge (when enabled), render every region,
and — the whole loop being wrapped in one `try` — return the original
frame when any region's rendering raised. -/
def apply_blur {F : Type} (prims : RenderPrims F) (frame : F)
    (detections : List Detection) (_use_feathering : Bool)
    (merge_overlaps : Bool) : F :=
  if detections.isEmpty then frame
  else
    let blur_detections := detections.filter (fun d => d.should_blur)
    if blur_detections.isEmpty then frame
    else
      let regions :=
        if merge_overlaps then merge_overlapping_boxes blur_detections
        else blur_detections
      match renderRegions prims regions frame with
      | Except.ok frame' => frame'
      | Except.error _ => frame

/-! ## Theorems -/

/-- Two boxes are disjoint: closed x-spans or closed y-spans do not overlap
(interiors are separated). -/
def disjointBoxes (a b : BBox) : Prop :=
  a.x + a.width ≤ b.x ∨ b.x + b.width ≤ a.x ∨
  a.y + a.height ≤ b.y ∨ b.y + b.height ≤ a.y

lemma iou_zero_of_x_collapse (a b : BBox)
    (h : min (a.x + a.width) (b.x + b.width) ≤ max a.x b.x) :
    calculate_iou a b = 0 := by
  unfold calculate_iou
  by_cases hg : min (a.x + a.width) (b.x + b.width) < max a.x b.x ∨
      min (a.y + a.height) (b.y + b.height) < max a.y b.y
  · rw [if_pos hg]
  · rw [if_neg hg]
    have hx : min (a.x + a.width) (b.x + b.width) - max a.x b.x = 0 := by omega
    rw [hx]
    simp

lemma iou_zero_of_y_collapse (a b : BBox)
    (h : min (a.y + a.height) (b.y + b.height) ≤ max a.y b.y) :
    calculate_iou a b = 0 := by
  unfold calculate_iou
  by_cases hg : min (a.x + a.width) (b.x + b.width) < max a.x b.x ∨
      min (a.y + a.height) (b.y + b.height) < max a.y b.y
  · rw [if_pos hg]
  · rw [if_neg hg]
    have hy : min (a.y + a.height) (b.y + b.height) - max a.y b.y = 0 := by omega
    rw [hy]
    simp

/-- C5: `calculate_iou` is 1 on any box of positive width and height paired
with itself; 0 on disjoint boxes; and 0 whenever either box has zero area. -/
theorem c5_iou_properties :
    (∀ a : BBox, 0 < a.width → 0 < a.height → calculate_iou a a = 1) ∧
    (∀ a b : BBox, disjointBoxes a b → calculate_iou a b = 0) ∧
    (∀ a b : BBox, a.width * a.height = 0 ∨ b.width * b.height = 0 →
      calculate_iou a b = 0) := by
  refine ⟨?_, ?_, ?_⟩
  · intro a hw hh
    unfold calculate_iou
    simp only [max_self, min_self]
    rw [if_neg (by omega)]
    have h1 : a.x + a.width - a.x = a.width := by ring
    have h2 : a.y + a.height - a.y = a.height := by ring
    rw [h1, h2]
    rw [if_pos (by nlinarith)]
    have h3 : a.width * a.height + a.width * a.height - a.width * a.height
        = a.width * a.height := by ring
    rw [h3, div_self]
    have h4 : (0:ℤ) < a.width * a.height := by positivity
    push_cast
    positivity
  · intro a b h
    rcases h with h | h | h | h
    · exact iou_zero_of_x_collapse a b (by omega)
    · exact iou_zero_of_x_collapse a b (by omega)
    · exact iou_zero_of_y_collapse a b (by omega)
    · exact iou_zero_of_y_collapse a b (by omega)
  · intro a b h
    rcases h with h | h
    · rcases mul_eq_zero.mp h with h | h
      · exact iou_zero_of_x_collapse a b (by omega)
      · exact iou_zero_of_y_collapse a b (by omega)
    · rcases mul_eq_zero.mp h with h | h
      · exact iou_zero_of_x_collapse a b (by omega)
      · exact iou_zero_of_y_collapse a b (by omega)

/-- Witness for C5 at concrete boxes: (0,0,10,10) against itself, against
the disjoint (20,0,10,10), and against the zero-area (0,0,0,10). -/
theorem c5_witness :
    calculate_iou ⟨0, 0, 10, 10⟩ ⟨0, 0, 10, 10⟩ = 1 ∧
    calculate_iou ⟨0, 0, 10, 10⟩ ⟨20, 0, 10, 10⟩ = 0 ∧
    calculate_iou ⟨0, 0, 10, 10⟩ ⟨0, 0, 0, 10⟩ = 0 :=
  ⟨c5_iou_properties.1 ⟨0, 0, 10, 10⟩ (by decide) (by decide),
   c5_iou_properties.2.1 ⟨0, 0, 10, 10⟩ ⟨20, 0, 10, 10⟩ (Or.inl (by decide)),
   c5_iou_properties.2.2 ⟨0, 0, 10, 10⟩ ⟨0, 0, 0, 10⟩ (Or.inr (by decide))⟩

lemma pyTrunc_intCast (n : ℤ) : pyTrunc (n : ℚ) = n := by
  unfold pyTrunc
  simp

/-- Concrete track used to refute C6: velocity (1/2, 0), bbox at the
origin. -/
def c6Track : TrackedObject :=
  { TrackedObject.init
      { type := "text", bbox := ⟨0, 0, 10, 10⟩, confidence := 9 / 10
        censorship_level := "medium", should_blur := true, tracking_id := none
        velocity := (0, 0), is_tracked := false, is_persistent := false }
      0 30
    with velocity := (1 / 2, 0) }

/-- C6 counterexample: with velocity (1/2, 0) and prediction_frames 3 the
emitted x is `int(0 + 1/2 * 3) = 1`, not the exact `3/2` the claim
demands. -/
theorem c6_counterexample :
    ¬ (((c6Track.predict_position 3).x : ℚ)
        = (c6Track.detection.bbox.x : ℚ) + c6Track.velocity.1 * 3) := by
  have hx : (c6Track.predict_position 3).x = 1 := by
    show pyTrunc (((0:ℤ) : ℚ) + (1 / 2) * ((3:ℕ) : ℚ)) = 1
    norm_num [pyTrunc]
    decide
  rw [hx]
  show ¬ ((1:ℚ) = ((0:ℤ) : ℚ) + (1 / 2) * 3)
  norm_num

/-- C6 amended: the predicted bbox keeps width and height and moves the
position to the integer truncation (toward zero, Python `int()`) of
`xy + velocity * frames_ahead`; whenever `velocity * frames_ahead` is a
whole number of pixels — in particular velocity (2,0) with
prediction_frames 3, giving an x offset of exactly +6 — the position is
exact. -/
theorem c6_amended_predict_truncated (t : TrackedObject) (pf : ℕ) :
    (t.predict_position pf).x
        = pyTrunc ((t.detection.bbox.x : ℚ) + t.velocity.1 * (pf : ℚ)) ∧
    (t.predict_position pf).y
        = pyTrunc ((t.detection.bbox.y : ℚ) + t.velocity.2 * (pf : ℚ)) ∧
    (t.predict_position pf).width = t.detection.bbox.width ∧
    (t.predict_position pf).height = t.detection.bbox.height ∧
    (∀ a b : ℤ, t.velocity = ((a : ℚ), (b : ℚ)) →
      (t.predict_position pf).x = t.detection.bbox.x + a * pf ∧
      (t.predict_position pf).y = t.detection.bbox.y + b * pf) := by
  refine ⟨rfl, rfl, rfl, rfl, ?_⟩
  intro a b hv
  unfold TrackedObject.predict_position
  rw [hv]
  constructor
  · show pyTrunc ((t.detection.bbox.x : ℚ) + (a : ℚ) * (pf : ℚ)) = _
    have : ((t.detection.bbox.x : ℚ) + (a : ℚ) * (pf : ℚ))
        = ((t.detection.bbox.x + a * (pf : ℤ) : ℤ) : ℚ) := by push_cast; ring
    rw [this, pyTrunc_intCast]
  · show pyTrunc ((t.detection.bbox.y : ℚ) + (b : ℚ) * (pf : ℚ)) = _
    have : ((t.detection.bbox.y : ℚ) + (b : ℚ) * (pf : ℚ))
        = ((t.detection.bbox.y + b * (pf : ℤ) : ℤ) : ℚ) := by push_cast; ring
    rw [this, pyTrunc_intCast]

/-- Witness for C6 amended: a track with velocity (2,0) and
prediction_frames 3 is emitted with an x offset of exactly +6. -/
theorem c6_witness :
    ((({ c6Track with velocity := (2, 0) } : TrackedObject).predict_position 3).x
      = ({ c6Track with velocity := (2, 0) } : TrackedObject).detection.bbox.x + 2 * 3) ∧
    (({ c6Track with velocity := (2, 0) } : TrackedObject).predict_position 3).width
      = ({ c6Track with velocity := (2, 0) } : TrackedObject).detection.bbox.width :=
  ⟨((c6_amended_predict_truncated { c6Track with velocity := (2, 0) } 3).2.2.2.2 2 0
      (by norm_num)).1,
   (c6_amended_predict_truncated { c6Track with velocity := (2, 0) } 3).2.2.1⟩

/-- C7: with an empty detection list, or one in which no detection has
`should_blur` set, `apply_blur` returns the input frame itself (the source
returns before `frame.copy()` is ever reached). -/
theorem c7_identity_no_occlusion {F : Type} (prims : RenderPrims F) (frame : F)
    (detections : List Detection) (uf mo : Bool)
    (h : detections = [] ∨ ∀ d ∈ detections, d.should_blur = false) :
    apply_blur prims frame detections uf mo = frame := by
  unfold apply_blur
  rcases h with h | h
  · simp [h]
  · have hfilter : detections.filter (fun d => d.should_blur) = [] :=
      List.filter_eq_nil_iff.mpr (fun a ha => by simp [h a ha])
    by_cases hd : detections.isEmpty
    · simp [hd]
    · simp [hd, hfilter]

/-- Render primitives over a log-of-marks frame (`List ℤ`): every
primitive succeeds and appends the region's x coordinate. -/
def noopPrims : RenderPrims (List ℤ) :=
  { gaussian := fun bb _ f => Except.ok (f ++ [bb.x])
    pixelate := fun bb _ f => Except.ok (f ++ [bb.x])
    black_box := fun bb _ f => Except.ok (f ++ [bb.x]) }

/-- A detection that must not be occluded (`should_blur = false`). -/
def c7det : Detection :=
  { type := "text", bbox := ⟨4, 5, 10, 10⟩, confidence := 1
    censorship_level := "high", should_blur := false, tracking_id := none
    velocity := (0, 0), is_tracked := false, is_persistent := false }

/-- Witness for C7: the empty list and a list with a single
non-`should_blur` detection both leave the frame untouched. -/
theorem c7_witness :
    apply_blur noopPrims ([3] : List ℤ) [] true true = [3] ∧
    apply_blur noopPrims ([3] : List ℤ) [c7det] true true = [3] :=
  ⟨c7_identity_no_occlusion noopPrims [3] [] true true (Or.inl rfl),
   c7_identity_no_occlusion noopPrims [3] [c7det] true true
     (Or.inr (fun d hd => by
        simp only [List.mem_singleton] at hd
        rw [hd]
        rfl))⟩

/-- C9: method selection priority of `_get_blur_method` — critical level
always selects the opaque box whatever the type; otherwise text selects
Gaussian blur, nsfw selects pixelation, anything else the default blur —
and the `apply_blur` loop renders a critical region through the
`black_box` primitive (fixed alpha 0.9). -/
theorem c9_method_selection :
    (∀ d : Detection, d.censorship_level = "critical" →
      get_blur_method d = "black_box") ∧
    (∀ d : Detection, d.censorship_level ≠ "critical" → d.type = "text" →
      get_blur_method d = "blur") ∧
    (∀ d : Detection, d.censorship_level ≠ "critical" → d.type = "nsfw" →
      get_blur_method d = "pixelate") ∧
    (∀ d : Detection, d.censorship_level ≠ "critical" → d.type ≠ "text" →
      d.type ≠ "nsfw" → get_blur_method d = "blur") ∧
    (∀ (F : Type) (prims : RenderPrims F) (frame : F) (d : Detection),
      d.censorship_level = "critical" →
      renderRegion prims d frame = prims.black_box d.bbox (9 / 10) frame) := by
  refine ⟨?_, ?_, ?_, ?_, ?_⟩
  · intro d hc
    unfold get_blur_method
    rw [if_pos hc]
  · intro d hc ht
    unfold get_blur_method
    rw [if_neg hc, if_pos ht]
  · intro d hc ht
    unfold get_blur_method
    rw [if_neg hc, ht]
    decide
  · intro d hc ht hn
    unfold get_blur_method
    rw [if_neg hc, if_neg ht, if_neg hn]
  · intro F prims frame d hc
    unfold renderRegion
    have hm : get_blur_method d = "black_box" := by
      unfold get_blur_method; rw [if_pos hc]
    rw [hm]
    rw [if_neg (by decide), if_neg (by decide), if_pos rfl]

/-- A critical-level nsfw detection used to witness C9. -/
def c9det : Detection :=
  { type := "nsfw", bbox := ⟨7, 8, 20, 20⟩, confidence := 1
    censorship_level := "critical", should_blur := true, tracking_id := none
    velocity := (0, 0), is_tracked := false, is_persistent := false }

/-- Witness for C9: a critical nsfw detection selects the opaque box (not
pixelation), and its rendering goes through the `black_box` primitive. -/
theorem c9_witness :
    get_blur_method c9det = "black_box" ∧
    renderRegion noopPrims c9det ([] : List ℤ)
      = noopPrims.black_box c9det.bbox (9 / 10) [] :=
  ⟨c9_method_selection.1 c9det rfl,
   c9_method_selection.2.2.2.2 (List ℤ) noopPrims [] c9det rfl⟩

/-- First box of the C8 horizontal-merge example: {x:0,y:0,w:10,h:10}. -/
def c8detA : Detection :=
  { type := "text", bbox := ⟨0, 0, 10, 10⟩, confidence := 1
    censorship_level := "medium", should_blur := true, tracking_id := none
    velocity := (0, 0), is_tracked := false, is_persistent := false }

/-- Second box of the C8 horizontal-merge example: {x:8,y:0,w:10,h:10}. -/
def c8detB : Detection :=
  { c8detA with bbox := ⟨8, 0, 10, 10⟩ }

/-- C8: the sweep merges the next (sorted-by-x) box into the running
cluster exactly when its x lies within the cluster's horizontal span and
its vertical span overlaps the cluster's; the two horizontally-overlapping
example boxes merge into one box spanning x 0..18; two boxes whose
horizontal spans are disjoint are never merged, whatever their vertical
overlap. -/
theorem c8_merge_sweep :
    (∀ cb db : BBox, cb.x ≤ db.x →
      (mergeCond cb db ↔ (cb.x ≤ db.x ∧ db.x ≤ cb.x + cb.width ∧
        db.y ≤ cb.y + cb.height ∧ cb.y ≤ db.y + db.height))) ∧
    merge_overlapping_boxes [c8detA, c8detB]
      = [{ c8detA with bbox := ⟨0, 0, 18, 10⟩ }] ∧
    (∀ d1 d2 : Detection, d1.bbox.x ≤ d2.bbox.x →
      d1.bbox.x + d1.bbox.width < d2.bbox.x →
      merge_overlapping_boxes [d1, d2] = [d1, d2]) := by
  refine ⟨?_, ?_, ?_⟩
  · intro cb db hx
    unfold mergeCond
    constructor
    · rintro ⟨h1, h2, h3⟩
      exact ⟨hx, by omega, by omega, by omega⟩
    · rintro ⟨_, h1, h2, h3⟩
      exact ⟨by omega, by omega, by omega⟩
  · decide
  · intro d1 d2 hle hgap
    unfold merge_overlapping_boxes
    rw [if_neg (by simp)]
    have hsort : sortByX [d1, d2] = [d1, d2] := by
      simp [sortByX, insertByX, hle]
    rw [hsort]
    have hcond : ¬ mergeCond d1.bbox d2.bbox := by unfold mergeCond; omega
    simp [mergeLoop, hcond]

/-- Witness for C8 at concrete boxes: the merge condition equivalence at
the example pair, and the non-merge of the x-disjoint pair
{x:0,w:10} / {x:20,w:10} (which do overlap vertically). -/
theorem c8_witness :
    (mergeCond c8detA.bbox c8detB.bbox ↔ (c8detA.bbox.x ≤ c8detB.bbox.x ∧
      c8detB.bbox.x ≤ c8detA.bbox.x + c8detA.bbox.width ∧
      c8detB.bbox.y ≤ c8detA.bbox.y + c8detA.bbox.height ∧
      c8detA.bbox.y ≤ c8detB.bbox.y + c8detB.bbox.height)) ∧
    merge_overlapping_boxes [c8detA, { c8detA with bbox := ⟨20, 0, 10, 10⟩ }]
      = [c8detA, { c8detA with bbox := ⟨20, 0, 10, 10⟩ }] :=
  ⟨c8_merge_sweep.1 c8detA.bbox c8detB.bbox (by decide),
   c8_merge_sweep.2.2 c8detA { c8detA with bbox := ⟨20, 0, 10, 10⟩ }
     (by decide) (by decide)⟩

/-- Smallest-x member of the C10 cluster: a medium text region. -/
def c10detA : Detection :=
  { type := "text", bbox := ⟨0, 0, 10, 10⟩, confidence := 1
    censorship_level := "medium", should_blur := true, tracking_id := none
    velocity := (0, 0), is_tracked := false, is_persistent := false }

/-- A critical nsfw region that merges into the C10 cluster. -/
def c10detB : Detection :=
  { type := "nsfw", bbox := ⟨8, 0, 10, 10⟩, confidence := 1
    censorship_level := "critical", should_blur := true, tracking_id := none
    velocity := (0, 0), is_tracked := false, is_persistent := false }

/-- C10: a merged cluster is the smallest-x member with only its bbox
grown, so confidence, censorship_level and type come from that member;
method and strength ignore the bbox, so they are computed from that member
alone — in particular a critical detection absorbed into a cluster whose
smallest-x member is non-critical is not rendered as an opaque box. -/
theorem c10_merge_keeps_first_fields :
    (∀ d1 d2 : Detection, d1.bbox.x ≤ d2.bbox.x → mergeCond d1.bbox d2.bbox →
      merge_overlapping_boxes [d1, d2]
        = [{ d1 with bbox := mergedBBox d1.bbox d2.bbox }]) ∧
    (∀ (d : Detection) (b : BBox),
      get_blur_method { d with bbox := b } = get_blur_method d ∧
      get_blur_strength { d with bbox := b } = get_blur_strength d) ∧
    merge_overlapping_boxes [c10detA, c10detB]
      = [{ c10detA with bbox := ⟨0, 0, 18, 10⟩ }] ∧
    get_blur_method { c10detA with bbox := ⟨0, 0, 18, 10⟩ } = "blur" ∧
    get_blur_method c10detB = "black_box" := by
  refine ⟨?_, ?_, ?_, ?_, ?_⟩
  · intro d1 d2 hle hcond
    unfold merge_overlapping_boxes
    rw [if_neg (by simp)]
    have hsort : sortByX [d1, d2] = [d1, d2] := by
      simp [sortByX, insertByX, hle]
    rw [hsort]
    simp [mergeLoop, hcond]
  · intro d b
    exact ⟨rfl, rfl⟩
  · decide
  · decide
  · decide

/-- Witness for C10: the general cluster equation applied at the concrete
pair (the critical region is absorbed into a medium text cluster). -/
theorem c10_witness :
    merge_overlapping_boxes [c10detA, c10detB]
      = [{ c10detA with bbox := mergedBBox c10detA.bbox c10detB.bbox }] :=
  c10_merge_keeps_first_fields.1 c10detA c10detB (by decide) (by decide)

/-- Render primitives over a log-of-marks frame in which the Gaussian blur
primitive raises on any region whose x coordinate is 0 and every other
call succeeds and appends the region's x coordinate. -/
def failPrims : RenderPrims (List ℤ) :=
  { gaussian := fun bb _ f =>
      if bb.x = 0 then Except.error () else Except.ok (f ++ [bb.x])
    pixelate := fun bb _ f => Except.ok (f ++ [bb.x])
    black_box := fun bb _ f => Except.ok (f ++ [bb.x]) }

/-- The region whose rendering raises (x = 0, Gaussian blur). -/
def c1det1 : Detection :=
  { type := "text", bbox := ⟨0, 0, 10, 10⟩, confidence := 1
    censorship_level := "medium", should_blur := true, tracking_id := none
    velocity := (0, 0), is_tracked := false, is_persistent := false }

/-- A second should-occlude region far to the right (never merged with the
first). -/
def c1det2 : Detection :=
  { c1det1 with bbox := ⟨100, 0, 10, 10⟩ }

/-- C1 counterexample: when rendering the first region raises, the whole
call returns the original frame, so the second should-occlude region —
which renders fine on its own — is NOT rendered onto the output. -/
theorem c1_counterexample :
    apply_blur failPrims ([] : List ℤ) [c1det1, c1det2] true true = [] ∧
    apply_blur failPrims ([] : List ℤ) [c1det2] true true = [100] ∧
    ([] : List ℤ) ≠ [100] := by
  refine ⟨?_, ?_, by decide⟩ <;> decide

/-- C1 amended: a rendering error raised while occluding any region aborts
the whole loop (there is no per-region handler) and `apply_blur` returns
the original, unoccluded input frame; no region's rendering reaches the
output. -/
theorem c1_amended_error_returns_original {F : Type} (prims : RenderPrims F)
    (frame : F) (detections : List Detection) (uf : Bool) (e : Unit)
    (h : renderRegions prims
        (merge_overlapping_boxes (detections.filter (fun d => d.should_blur)))
        frame = Except.error e) :
    apply_blur prims frame detections uf true = frame := by
  unfold apply_blur
  by_cases hd : detections.isEmpty
  · simp [hd]
  · by_cases hf : (detections.filter (fun d => d.should_blur)).isEmpty
    · simp [hd, hf]
    · simp [hd, hf, h]

/-- Witness for C1 amended at the concrete failing input. -/
theorem c1_witness :
    apply_blur failPrims ([] : List ℤ) [c1det1, c1det2] true true = [] :=
  c1_amended_error_returns_original failPrims [] [c1det1, c1det2] true () rfl

/-- The detection fed twice in one update to refute C2. -/
def c2det : Detection :=
  { type := "text", bbox := ⟨0, 0, 10, 10⟩, confidence := 1
    censorship_level := "medium", should_blur := true, tracking_id := none
    velocity := (0, 0), is_tracked := false, is_persistent := false }

/-- A live track over the same region as `c2det`. -/
def c2T0 : TrackedObject := TrackedObject.init c2det 0 30

/-- `c2T0` after one failed refresh (age 1). -/
def c2T1 : TrackedObject := { c2T0 with age := 1 }

/-- `c2T1` after being claimed by the first detection. -/
def c2T2 : TrackedObject := c2T1.update_position c2det.bbox

/-- `c2T2` after being claimed again by the second detection. -/
def c2T3 : TrackedObject := c2T2.update_position c2det.bbox

/-- First emitted detection of the C2 run. -/
def c2d1 : Detection :=
  { c2det with tracking_id := some 0, bbox := c2T2.predict_position 3
               velocity := c2T2.velocity, is_tracked := true }

/-- Second emitted detection of the C2 run: same tracking id as the first. -/
def c2d2 : Detection :=
  { c2det with tracking_id := some 0, bbox := c2T3.predict_position 3
               velocity := c2T3.velocity, is_tracked := true }

/-- C2 counterexample: nothing marks a track as claimed, so two identical
detections in one `update_trackers` call both match live track 0 and the
emitted list carries the duplicated tracking id [some 0, some 0]. -/
theorem c2_counterexample :
    (update_trackers (fun _ _ => none) (fun _ => true) 3 30 [c2det, c2det]
      [(0, c2T0)] 1).dets.map (fun d => d.tracking_id) = [some 0, some 0] ∧
    ¬ ((update_trackers (fun _ _ => none) (fun _ => true) 3 30 [c2det, c2det]
      [(0, c2T0)] 1).dets.map (fun d => d.tracking_id)).Nodup := by
  have hiou1 : calculate_iou c2det.bbox c2T1.detection.bbox = 1 := by
    norm_num [calculate_iou, c2det, c2T1, c2T0, TrackedObject.init]
  have hb2 : c2T2.detection.bbox = c2det.bbox := rfl
  have hiou2 : calculate_iou c2det.bbox c2T2.detection.bbox = 1 := by
    rw [hb2]; norm_num [calculate_iou, c2det]
  have hm1 : match_detection_to_tracker c2det [(0, c2T1)] = some (0, c2T1) := by
    simp [match_detection_to_tracker, matchFold, hiou1]; norm_num
  have hm2 : match_detection_to_tracker c2det [(0, c2T2)] = some (0, c2T2) := by
    simp [match_detection_to_tracker, matchFold, hiou2]; norm_num
  have h1 : removeExpired (refreshPhase (fun _ _ => none) [(0, c2T0)])
      = [(0, c2T1)] := rfl
  have h2 : setTracker 0 (c2T1.update_position c2det.bbox) [(0, c2T1)]
      = [(0, c2T2)] := rfl
  have h4 : setTracker 0 (c2T2.update_position c2det.bbox) [(0, c2T2)]
      = [(0, c2T3)] := rfl
  have hassoc : assocPhase 3 [c2det, c2det] [(0, c2T1)]
      = ([c2d1, c2d2], [], [(0, c2T3)]) := by
    simp only [assocPhase, hm1, h2, hm2, h4]
    rfl
  have hcreate : creationPhase (fun _ => true) 30 [] 1 = ([], [], 1) := rfl
  have hmain : (update_trackers (fun _ _ => none) (fun _ => true) 3 30
      [c2det, c2det] [(0, c2T0)] 1).dets.map (fun d => d.tracking_id)
      = [some 0, some 0] := by
    simp [update_trackers, h1, hassoc, hcreate, c2d1, c2d2]
    rfl
  refine ⟨hmain, ?_⟩
  rw [hmain]
  decide

/-- The greedy fold of `_match_detection_to_tracker` returns its incoming
best when nothing in the list beats the incoming bound, and otherwise the
earliest entry of maximal IoU among those strictly above the bound. -/
lemma matchFold_char (d : Detection) (l : List (ℕ × TrackedObject)) :
    ∀ (best : Option (ℕ × TrackedObject)) (b : ℚ),
    (matchFold d l best b = best ∧
      ∀ q ∈ l, calculate_iou d.bbox q.2.detection.bbox ≤ b) ∨
    (∃ l1 p l2, l = l1 ++ p :: l2 ∧ matchFold d l best b = some p ∧
      b < calculate_iou d.bbox p.2.detection.bbox ∧
      (∀ q ∈ l1, calculate_iou d.bbox q.2.detection.bbox
        < calculate_iou d.bbox p.2.detection.bbox) ∧
      (∀ q ∈ l2, calculate_iou d.bbox q.2.detection.bbox
        ≤ calculate_iou d.bbox p.2.detection.bbox)) := by
  induction l with
  | nil =>
    intro best b
    left
    exact ⟨rfl, by simp⟩
  | cons hd tl ih =>
    intro best b
    by_cases h : b < calculate_iou d.bbox hd.2.detection.bbox
    · have heq : matchFold d (hd :: tl) best b
          = matchFold d tl (some hd) (calculate_iou d.bbox hd.2.detection.bbox) := by
        simp [matchFold, h]
      rcases ih (some hd) (calculate_iou d.bbox hd.2.detection.bbox) with
        ⟨hres, hall⟩ | ⟨l1, p, l2, hsp, hres, hlt, hpre, hpost⟩
      · right
        exact ⟨[], hd, tl, rfl, by rw [heq, hres], h, by simp, hall⟩
      · right
        refine ⟨hd :: l1, p, l2, by rw [hsp]; rfl, by rw [heq, hres],
          lt_trans h hlt, ?_, hpost⟩
        intro q hq
        rcases List.mem_cons.mp hq with rfl | hq
        · exact hlt
        · exact hpre q hq
    · have heq : matchFold d (hd :: tl) best b = matchFold d tl best b := by
        simp [matchFold, h]
      push_neg at h
      rcases ih best b with ⟨hres, hall⟩ | ⟨l1, p, l2, hsp, hres, hlt, hpre, hpost⟩
      · left
        refine ⟨by rw [heq, hres], ?_⟩
        intro q hq
        rcases List.mem_cons.mp hq with rfl | hq
        · exact h
        · exact hall q hq
      · right
        refine ⟨hd :: l1, p, l2, by rw [hsp]; rfl, by rw [heq, hres], hlt, ?_, hpost⟩
        intro q hq
        rcases List.mem_cons.mp hq with rfl | hq
        · exact lt_of_le_of_lt h hlt
        · exact hpre q hq

/-- C2 amended: each detection is matched to the first live Track
attaining the maximum IoU strictly above 0.3 over ALL live tracks —
already-claimed tracks are not excluded (nothing marks a track claimed),
so one track can be claimed by several detections of the same update and
duplicate tracking ids can be emitted (see the counterexample). The
matcher returns `none` exactly when no live track exceeds the threshold;
otherwise it returns the earliest (insertion order) track of maximal
IoU. -/
theorem c2_amended_match_characterization (d : Detection)
    (trackers : List (ℕ × TrackedObject)) :
    (match_detection_to_tracker d trackers = none ∧
      ∀ q ∈ trackers, calculate_iou d.bbox q.2.detection.bbox ≤ 3 / 10) ∨
    (∃ l1 p l2, trackers = l1 ++ p :: l2 ∧
      match_detection_to_tracker d trackers = some p ∧
      3 / 10 < calculate_iou d.bbox p.2.detection.bbox ∧
      (∀ q ∈ l1, calculate_iou d.bbox q.2.detection.bbox
        < calculate_iou d.bbox p.2.detection.bbox) ∧
      (∀ q ∈ l2, calculate_iou d.bbox q.2.detection.bbox
        ≤ calculate_iou d.bbox p.2.detection.bbox)) := by
  exact matchFold_char d trackers none (3 / 10)

/-- Witness for C2 amended, at the concrete one-track state: the
disjunction instantiated where the matcher does return the (unique,
maximal) track. -/
theorem c2_witness :
    (match_detection_to_tracker c2det [(0, c2T1)] = none ∧
      ∀ q ∈ [(0, c2T1)], calculate_iou c2det.bbox q.2.detection.bbox ≤ 3 / 10) ∨
    (∃ l1 p l2, [(0, c2T1)] = l1 ++ p :: l2 ∧
      match_detection_to_tracker c2det [(0, c2T1)] = some p ∧
      3 / 10 < calculate_iou c2det.bbox p.2.detection.bbox ∧
      (∀ q ∈ l1, calculate_iou c2det.bbox q.2.detection.bbox
        < calculate_iou c2det.bbox p.2.detection.bbox) ∧
      (∀ q ∈ l2, calculate_iou c2det.bbox q.2.detection.bbox
        ≤ calculate_iou c2det.bbox p.2.detection.bbox)) :=
  c2_amended_match_characterization c2det [(0, c2T1)]

lemma update_position_age (t : TrackedObject) (b : BBox) :
    (t.update_position b).age = 0 := by
  unfold TrackedObject.update_position
  dsimp only
  split <;> rfl

lemma update_position_max_age (t : TrackedObject) (b : BBox) :
    (t.update_position b).max_age = t.max_age := by
  unfold TrackedObject.update_position
  dsimp only
  split <;> rfl

lemma removeExpired_age (l : List (ℕ × TrackedObject)) :
    ∀ p ∈ removeExpired l, p.2.age ≤ p.2.max_age := by
  intro p hp
  unfold removeExpired at hp
  have h := List.of_mem_filter hp
  simp [TrackedObject.is_expired] at h
  exact h

lemma assocPhase_age (pf : ℕ) :
    ∀ (dets : List Detection) (l : List (ℕ × TrackedObject)),
    (∀ p ∈ l, p.2.age ≤ p.2.max_age) →
    ∀ p ∈ (assocPhase pf dets l).2.2, p.2.age ≤ p.2.max_age := by
  intro dets
  induction dets with
  | nil =>
    intro l hl p hp
    exact hl p hp
  | cons d rest ih =>
    intro l hl p hp
    unfold assocPhase at hp
    cases hmatch : match_detection_to_tracker d l with
    | none =>
      rw [hmatch] at hp
      exact ih l hl p hp
    | some idt =>
      rw [hmatch] at hp
      apply ih (setTracker idt.1 (idt.2.update_position d.bbox) l) ?_ p hp
      intro q hq
      unfold setTracker at hq
      rcases List.mem_map.mp hq with ⟨r, hr, hrq⟩
      by_cases hid : r.1 = idt.1
      · rw [if_pos hid] at hrq
        rw [← hrq]
        simp [update_position_age, update_position_max_age]
      · rw [if_neg hid] at hrq
        rw [← hrq]
        exact hl r hr

lemma creationPhase_age (initOk : Detection → Bool) (max_age : ℕ) :
    ∀ (dets : List Detection) (nid : ℕ),
    ∀ p ∈ (creationPhase initOk max_age dets nid).2.1, p.2.age = 0 := by
  intro dets
  induction dets with
  | nil => simp [creationPhase]
  | cons d rest ih =>
    intro nid p hp
    unfold creationPhase at hp
    by_cases h : initOk d
    · simp only [h, if_true] at hp
      rcases List.mem_cons.mp hp with rfl | hp
      · rfl
      · exact ih _ p hp
    · simp only [h, if_false] at hp
      exact ih _ p hp

/-- C4: `age` resets to 0 on every successful position update, increments
by exactly 1 when a frame passes without a refresh, and — since expiry
removal runs in the same `update_trackers` call right after ages change —
after every update, every live track satisfies `age ≤ max_age`. -/
theorem c4_age_invariant :
    (∀ (t : TrackedObject) (b : BBox), (t.update_position b).age = 0) ∧
    (∀ t : TrackedObject, t.increment_age.age = t.age + 1) ∧
    (∀ (refresh : ℕ → TrackedObject → Option BBox) (initOk : Detection → Bool)
      (pf m : ℕ) (dets : List Detection) (trackers : List (ℕ × TrackedObject))
      (nid : ℕ) (p : ℕ × TrackedObject),
      p ∈ (update_trackers refresh initOk pf m dets trackers nid).trackers →
      p.2.age ≤ p.2.max_age) := by
  refine ⟨update_position_age, fun t => rfl, ?_⟩
  intro refresh initOk pf m dets trackers nid p hp
  unfold update_trackers at hp
  rcases List.mem_append.mp hp with hp | hp
  · exact assocPhase_age pf dets _
      (removeExpired_age (refreshPhase refresh trackers)) p hp
  · rw [creationPhase_age initOk m _ _ p hp]
    exact Nat.zero_le _

/-- Track for the C4 witness run. -/
def c4T0 : TrackedObject :=
  TrackedObject.init
    { type := "nsfw", bbox := ⟨40, 40, 12, 12⟩, confidence := 1
      censorship_level := "high", should_blur := true, tracking_id := some 0
      velocity := (0, 0), is_tracked := true, is_persistent := false }
    0 30

/-- Witness for C4: after an update whose refresh fails (age 0 → 1), the
surviving track still satisfies the invariant. -/
theorem c4_witness :
    (((0 : ℕ), ({ c4T0 with age := 1 } : TrackedObject))).2.age
      ≤ (((0 : ℕ), ({ c4T0 with age := 1 } : TrackedObject))).2.max_age :=
  c4_age_invariant.2.2 (fun _ _ => none) (fun _ => true) 3 30 [] [(0, c4T0)] 1
    (0, { c4T0 with age := 1 })
    (by
      have h : (update_trackers (fun _ _ => none) (fun _ => true) 3 30 []
          [(0, c4T0)] 1).trackers = [(0, { c4T0 with age := 1 })] := rfl
      rw [h]
      exact List.mem_singleton_self _)

/-- One `update_trackers` call on a frame where the detector reported
nothing and re-localization failed for every track. -/
def emptyStep (pf m : ℕ) (st : List (ℕ × TrackedObject) × ℕ) : UpdateResult :=
  update_trackers (fun _ _ => none) (fun _ => true) pf m [] st.1 st.2

/-- `k` successive such detector-silent frames. -/
def emptyIter (pf m : ℕ) (st : List (ℕ × TrackedObject) × ℕ) :
    ℕ → List (ℕ × TrackedObject) × ℕ
  | 0 => st
  | k + 1 =>
    let r := emptyStep pf m (emptyIter pf m st k)
    (r.trackers, r.next_id)

/-- The enriched detection emitted when `d0` first creates a track. -/
def c3Det0 (d0 : Detection) : Detection :=
  { d0 with tracking_id := some 0, is_tracked := true, velocity := (0, 0) }

/-- The track created from `d0` (max_age `m`). -/
def c3Track (d0 : Detection) (m : ℕ) : TrackedObject :=
  TrackedObject.init (c3Det0 d0) 0 m

/-- The ghost detection synthesized for that track on detector-silent
frames. -/
def c3Ghost (d0 : Detection) : Detection :=
  { c3Det0 d0 with is_persistent := true }

lemma predict_zero (t : TrackedObject) (pf : ℕ) (h : t.velocity = (0, 0)) :
    t.predict_position pf = t.detection.bbox := by
  unfold TrackedObject.predict_position
  rw [h]
  dsimp only
  have hz : ∀ z : ℤ, pyTrunc ((z : ℚ) + 0 * (pf : ℚ)) = z := by
    intro z
    rw [zero_mul, add_zero, pyTrunc_intCast]
  rw [hz, hz]

lemma c3_first_update (d0 : Detection) (pf m : ℕ) :
    update_trackers (fun _ _ => none) (fun _ => true) pf m [d0] [] 0
      = ⟨[c3Det0 d0], [(0, c3Track d0 m)], 1⟩ := rfl

lemma c3_step (d0 : Detection) (pf m k : ℕ) (h : k + 1 ≤ m) :
    emptyStep pf m ([(0, { c3Track d0 m with age := k })], 1)
      = ⟨[c3Ghost d0], [(0, { c3Track d0 m with age := k + 1 })], 1⟩ := by
  have hexp : ({ c3Track d0 m with age := k + 1 } : TrackedObject).is_expired
      = false := by
    simp only [TrackedObject.is_expired, c3Track, TrackedObject.init]
    simp only [decide_eq_false_iff_not, not_lt]
    omega
  have hlive : removeExpired (refreshPhase (fun _ _ => none)
      [(0, { c3Track d0 m with age := k })])
      = [(0, { c3Track d0 m with age := k + 1 })] := by
    simp [refreshPhase, removeExpired, TrackedObject.increment_age, hexp]
  have hpred : ({ c3Track d0 m with age := k + 1 } : TrackedObject).predict_position pf
      = (c3Det0 d0).bbox := predict_zero _ pf rfl
  unfold emptyStep update_trackers
  rw [hlive]
  simp [assocPhase, creationPhase, ghostPhase, hpred]
  rfl

lemma c3_expire (d0 : Detection) (pf m : ℕ) :
    emptyStep pf m ([(0, { c3Track d0 m with age := m })], 1) = ⟨[], [], 1⟩ := by
  have hexp : ({ c3Track d0 m with age := m + 1 } : TrackedObject).is_expired
      = true := by
    simp only [TrackedObject.is_expired, c3Track, TrackedObject.init]
    simp only [decide_eq_true_eq]
    omega
  have hlive : removeExpired (refreshPhase (fun _ _ => none)
      [(0, { c3Track d0 m with age := m })]) = [] := by
    simp [refreshPhase, removeExpired, TrackedObject.increment_age, hexp]
  unfold emptyStep update_trackers
  rw [hlive]
  rfl

lemma c3_iter (d0 : Detection) (pf m : ℕ) :
    ∀ k, k ≤ m → emptyIter pf m ([(0, c3Track d0 m)], 1) k
      = ([(0, { c3Track d0 m with age := k })], 1) := by
  intro k
  induction k with
  | zero => intro _; rfl
  | succ k ih =>
    intro hk
    simp only [emptyIter]
    rw [ih (by omega), c3_step d0 pf m k (by omega)]

/-- C3: ghosts are exactly one synthesized persistent detection per
unclaimed live track (carrying the track's predicted bbox); the output
size is matched + newly created + ghosts; and in the
detected-once-then-absent scenario (re-localization failing on the silent
frames) the region appears as exactly one persistent detection on every
one of the first `max_age` silent frames and disappears — track destroyed
— on the frame after that. -/
theorem c3_ghost_persistence :
    (∀ (pf : ℕ) (matched : List Detection) (trackers : List (ℕ × TrackedObject))
      (g : Detection), g ∈ ghostPhase pf matched trackers →
      g.is_persistent = true ∧
      ∃ p, p ∈ trackers ∧
        (matched.any (fun d => d.tracking_id = some p.1)) = false ∧
        g.bbox = p.2.predict_position pf) ∧
    (∀ (pf : ℕ) (matched : List Detection) (trackers : List (ℕ × TrackedObject)),
      (ghostPhase pf matched trackers).length
        = (trackers.filter (fun p =>
            ¬ matched.any (fun d => d.tracking_id = some p.1))).length) ∧
    (∀ (refresh : ℕ → TrackedObject → Option BBox) (initOk : Detection → Bool)
      (pf m : ℕ) (dets : List Detection) (trackers : List (ℕ × TrackedObject))
      (nid : ℕ),
      (update_trackers refresh initOk pf m dets trackers nid).dets.length
        = (assocPhase pf dets (removeExpired (refreshPhase refresh trackers))).1.length
          + (creationPhase initOk m
              (assocPhase pf dets (removeExpired (refreshPhase refresh trackers))).2.1
              nid).1.length
          + (ghostPhase pf
              ((assocPhase pf dets (removeExpired (refreshPhase refresh trackers))).1
                ++ (creationPhase initOk m
                  (assocPhase pf dets
                    (removeExpired (refreshPhase refresh trackers))).2.1 nid).1)
              ((assocPhase pf dets (removeExpired (refreshPhase refresh trackers))).2.2 ++
                (creationPhase initOk m
                  (assocPhase pf dets
                    (removeExpired (refreshPhase refresh trackers))).2.1
                  nid).2.1)).length) ∧
    (∀ (d0 : Detection) (pf m : ℕ),
      update_trackers (fun _ _ => none) (fun _ => true) pf m [d0] [] 0
        = ⟨[c3Det0 d0], [(0, c3Track d0 m)], 1⟩) ∧
    (∀ (d0 : Detection) (pf m j : ℕ), j < m →
      (emptyStep pf m (emptyIter pf m ([(0, c3Track d0 m)], 1) j)).dets
          = [c3Ghost d0] ∧
      (emptyStep pf m (emptyIter pf m ([(0, c3Track d0 m)], 1) j)).trackers
          = [(0, { c3Track d0 m with age := j + 1 })]) ∧
    (∀ (d0 : Detection) (pf m : ℕ),
      (emptyStep pf m (emptyIter pf m ([(0, c3Track d0 m)], 1) m)).dets = [] ∧
      (emptyStep pf m (emptyIter pf m ([(0, c3Track d0 m)], 1) m)).trackers = []) := by
  refine ⟨?_, ?_, ?_, c3_first_update, ?_, ?_⟩
  · intro pf matched trackers g hg
    unfold ghostPhase at hg
    rcases List.mem_map.mp hg with ⟨p, hp, hgp⟩
    have hp2 := List.of_mem_filter hp
    have hp1 := List.mem_of_mem_filter hp
    rw [← hgp]
    refine ⟨rfl, p, hp1, ?_, rfl⟩
    simpa using hp2
  · intro pf matched trackers
    unfold ghostPhase
    rw [List.length_map]
  · intro refresh initOk pf m dets trackers nid
    unfold update_trackers
    simp [List.length_append]
    omega
  · intro d0 pf m j hj
    rw [c3_iter d0 pf m j (by omega), c3_step d0 pf m j (by omega)]
    exact ⟨rfl, rfl⟩
  · intro d0 pf m
    rw [c3_iter d0 pf m m le_rfl, c3_expire d0 pf m]
    exact ⟨rfl, rfl⟩

/-- Witness for C3 at a concrete region with `max_age = 30`,
`prediction_frames = 3`: the ghost is still emitted on silent frame 5 and
nothing is emitted on silent frame 31. -/
theorem c3_witness :
    ((emptyStep 3 30 (emptyIter 3 30 ([(0, c3Track c9det 30)], 1) 4)).dets
      = [c3Ghost c9det]) ∧
    ((emptyStep 3 30 (emptyIter 3 30 ([(0, c3Track c9det 30)], 1) 30)).dets
      = []) :=
  ⟨(c3_ghost_persistence.2.2.2.2.1 c9det 3 30 4 (by omega)).1,
   (c3_ghost_persistence.2.2.2.2.2 c9det 3 30).1⟩
